import Mathlib

/-!
Shallow embedding of the SQL-safety and access-control gate of the
MCP-Procuction_MySQL repository (Python), together with proofs of the
spec's testable properties.

Strings are embedded as `List Char` (`Str`), faithful to Python's
sequence-of-characters view.  Python's `str.strip()`, `str.lower()`,
`str.upper()`, `str.split()` and the `re` module operations used by the
source are embedded below for the ASCII inputs the gate manipulates.
-/

namespace MySQLGate

abbrev Str := List Char

/-- Embed a Lean string literal as a `Str`. -/
def sl (s : String) : Str := s.toList

/-- Python whitespace characters recognised by `str.strip()` / `str.split()`
and by the regex class `\s` (ASCII range). -/
def pySpace (c : Char) : Bool :=
  c = ' ' || c = '\t' || c = '\n' || c = '\x0d' || c = '\x0b' || c = '\x0c'

/-- ASCII lower-casing, as applied by `str.lower()` on the identifiers and
SQL keywords the gate compares. -/
def lowerChar (c : Char) : Char :=
  if 'A' ≤ c ∧ c ≤ 'Z' then Char.ofNat (c.toNat + 32) else c

/-- ASCII upper-casing, as applied by `str.upper()`. -/
def upperChar (c : Char) : Char :=
  if 'a' ≤ c ∧ c ≤ 'z' then Char.ofNat (c.toNat - 32) else c

def lowerStr (s : Str) : Str := s.map lowerChar

def upperStr (s : Str) : Str := s.map upperChar

/-- Python `str.strip()` with no argument: drop leading and trailing
whitespace. -/
def pyStrip (s : Str) : Str :=
  ((s.dropWhile pySpace).reverse.dropWhile pySpace).reverse

/-- First element of Python `s.split()` for a string with no leading
whitespace (the source only calls it on stripped strings). -/
def firstWord (s : Str) : Str := s.takeWhile (fun c => !pySpace c)

/-- Python `str.startswith(p)`. -/
def pyStartsWith (s p : Str) : Bool :=
  decide (p <+: s)

/-- Python `needle in hay` on strings: substring containment. -/
def containsSub (needle hay : Str) : Bool :=
  decide (needle <:+: hay)

/-! ## A small regular-expression engine

The source uses `re.search` with patterns built from literals, character
classes (`\s`, `.`, `[^...]`), alternation, `?`, `*` and `+`.  We embed the
patterns as terms of `Rx` and decide `re.search` by Brzozowski derivatives.
`re.MULTILINE` only changes `^`/`$`, which none of the deny-list patterns
contain, so it needs no embedding; `re.IGNORECASE` is embedded by
case-insensitive character classes. -/

inductive Rx : Type where
  | none_ : Rx
  | eps : Rx
  | cls (p : Char → Bool) : Rx
  | cat (a b : Rx) : Rx
  | alt (a b : Rx) : Rx
  | star (r : Rx) : Rx

namespace Rx

/-- Smart concatenation, pruning the failing regex. -/
def mkCat : Rx → Rx → Rx
  | none_, _ => none_
  | _, none_ => none_
  | eps, b => b
  | a, eps => a
  | a, b => cat a b

/-- Smart alternation, pruning the failing regex. -/
def mkAlt : Rx → Rx → Rx
  | none_, b => b
  | a, none_ => a
  | a, b => alt a b

def nullable : Rx → Bool
  | none_ => false
  | eps => true
  | cls _ => false
  | cat a b => nullable a && nullable b
  | alt a b => nullable a || nullable b
  | star _ => true

/-- Brzozowski derivative with respect to one character. -/
def deriv : Rx → Char → Rx
  | none_, _ => none_
  | eps, _ => none_
  | cls p, c => if p c then eps else none_
  | cat a b, c =>
      if nullable a then mkAlt (mkCat (deriv a c) b) (deriv b c)
      else mkCat (deriv a c) b
  | alt a b, c => mkAlt (deriv a c) (deriv b c)
  | star r, c => mkCat (deriv r c) (star r)

/-- Does `r` match some prefix of `s`? -/
def acceptsPref : Rx → Str → Bool
  | r, [] => nullable r
  | r, c :: cs => nullable r || acceptsPref (deriv r c) cs

/-- `re.search(r, s)`: does `r` match a substring of `s` starting at some
position? -/
def search : Rx → Str → Bool
  | r, [] => nullable r
  | r, c :: cs => acceptsPref r (c :: cs) || search r cs

/-- One literal character, case-insensitively (`re.IGNORECASE`). -/
def chrCI (c : Char) : Rx := cls (fun x => lowerChar x = lowerChar c)

/-- A literal string, case-insensitively. -/
def litCI (s : String) : Rx := s.toList.foldr (fun c acc => mkCat (chrCI c) acc) eps

/-- Alternation of a non-empty list of branches. -/
def altL : List Rx → Rx
  | [] => none_
  | [r] => r
  | r :: rs => mkAlt r (altL rs)

/-- `\s` -/
def ws : Rx := cls pySpace

/-- `\s*` -/
def wsStar : Rx := star ws

/-- `\s+` -/
def wsPlus : Rx := mkCat ws wsStar

/-- `.` without `re.DOTALL`: any character except a newline. -/
def dot : Rx := cls (fun c => !(c = '\n'))

/-- `.*` -/
def dotStar : Rx := star dot

/-- Concatenation of a list of pieces. -/
def catL (rs : List Rx) : Rx := rs.foldr mkCat eps

end Rx

/-! ## `src/config.py`: keyword sets and the dangerous-pattern deny-list -/

def ALLOWED_USERNAMES : List Str := [sl "vedantparmar12"]

def READ_OPERATIONS : List Str :=
  [sl "select", sl "show", sl "describe", sl "desc", sl "explain"]

def WRITE_OPERATIONS : List Str :=
  [sl "insert", sl "update", sl "delete", sl "replace"]

def DDL_OPERATIONS : List Str :=
  [sl "create", sl "alter", sl "drop", sl "truncate", sl "rename"]

def PROCEDURE_OPERATIONS : List Str :=
  [sl "call", sl "execute"]

def TRANSACTION_OPERATIONS : List Str :=
  [sl "begin", sl "start", sl "commit", sl "rollback", sl "savepoint"]

open Rx in
/-- `r';\s*(drop|delete|truncate|alter)\s+'` -/
def pat1 : Rx :=
  catL [litCI ";", wsStar,
        altL [litCI "drop", litCI "delete", litCI "truncate", litCI "alter"],
        wsPlus]

open Rx in
/-- `r';\s*delete\s+.*\s+where\s+1\s*=\s*1'` -/
def pat2 : Rx :=
  catL [litCI ";", wsStar, litCI "delete", wsPlus, dotStar, wsPlus,
        litCI "where", wsPlus, litCI "1", wsStar, litCI "=", wsStar, litCI "1"]

open Rx in
/-- `r'--.*drop\s+'` -/
def pat3 : Rx :=
  catL [litCI "--", dotStar, litCI "drop", wsPlus]

open Rx in
/-- `r'/\*.*\*/\s*;\s*drop'` -/
def pat4 : Rx :=
  catL [litCI "/*", dotStar, litCI "*/", wsStar, litCI ";", wsStar, litCI "drop"]

open Rx in
/-- `r'(mysql|information_schema|performance_schema|sys)\.(user|db|tables_priv|columns_priv)'` -/
def pat5 : Rx :=
  catL [altL [litCI "mysql", litCI "information_schema",
              litCI "performance_schema", litCI "sys"],
        litCI ".",
        altL [litCI "user", litCI "db", litCI "tables_priv", litCI "columns_priv"]]

open Rx in
/-- `r'(into\s+outfile|load_file|load\s+data)'` -/
def pat6 : Rx :=
  altL [catL [litCI "into", wsPlus, litCI "outfile"],
        litCI "load_file",
        catL [litCI "load", wsPlus, litCI "data"]]

open Rx in
/-- `r'(grant|revoke|create\s+user|drop\s+user|alter\s+user)'` -/
def pat7 : Rx :=
  altL [litCI "grant", litCI "revoke",
        catL [litCI "create", wsPlus, litCI "user"],
        catL [litCI "drop", wsPlus, litCI "user"],
        catL [litCI "alter", wsPlus, litCI "user"]]

def DANGEROUS_SQL_PATTERNS : List Rx := [pat1, pat2, pat3, pat4, pat5, pat6, pat7]

/-- The deny-list scan of `validate_sql_query`: does any dangerous pattern
match (via `re.search`, case-insensitive) somewhere in `s`? -/
def dangerousMatch (s : Str) : Bool :=
  DANGEROUS_SQL_PATTERNS.any (fun r => Rx.search r s)

/-- `src/config.py`: `is_write_access_allowed(github_username)` -/
def is_write_access_allowed (github_username : Str) : Bool :=
  (ALLOWED_USERNAMES.map lowerStr).contains (lowerStr github_username)

/-- The first keyword of a statement: `sql.strip().lower().split()[0]`
(empty when the stripped statement is empty, as in the source). -/
def firstKeyword (sql : Str) : Str :=
  firstWord (lowerStr (pyStrip sql))

/-- `src/config.py`: `get_operation_type(sql)` -/
def get_operation_type (sql : Str) : Str :=
  let first_word := firstKeyword sql
  if READ_OPERATIONS.contains first_word then sl "read"
  else if WRITE_OPERATIONS.contains first_word then sl "write"
  else if DDL_OPERATIONS.contains first_word then sl "ddl"
  else if PROCEDURE_OPERATIONS.contains first_word then sl "procedure"
  else if TRANSACTION_OPERATIONS.contains first_word then sl "transaction"
  else sl "unknown"

/-! ## `src/models.py` / `src/database/security.py`: SQL validation -/

/-- `src/models.py`: `SqlValidationResult` -/
structure SqlValidationResult : Type where
  is_valid : Bool
  error : Option Str := Option.none
  operation_type : Option Str := Option.none
  requires_privilege : Bool := false
  deriving Repr, DecidableEq

/-- `src/database/security.py`: `validate_sql_query(sql)`.  The deny-list is
checked against `sql_normalized = sql.strip()`; classification also works
on the normalized statement; the CTE heuristic turns an `unknown` statement
starting with `with` or `(` into `read`. -/
def validate_sql_query (sql : Str) : SqlValidationResult :=
  if pyStrip sql = [] then
    { is_valid := false, error := some (sl "SQL query cannot be empty") }
  else
    let sql_normalized := pyStrip sql
    if dangerousMatch sql_normalized then
      { is_valid := false,
        error := some (sl "SQL contains potentially dangerous pattern") }
    else
      let operation_type := get_operation_type sql_normalized
      let requires_privilege :=
        [sl "write", sl "ddl", sl "procedure", sl "transaction"].contains operation_type
      let operation_type :=
        if operation_type = sl "unknown" ∧
           (pyStartsWith (lowerStr sql_normalized) (sl "with") ∨
            pyStartsWith (lowerStr sql_normalized) (sl "(")) then
          sl "read"
        else operation_type
      { is_valid := true
        operation_type := some operation_type
        requires_privilege := requires_privilege }

/-! ## `src/database/security.py`: identifier sanitization -/

/-- Does `s` match the identifier body `[A-Za-z_][A-Za-z0-9_]*` exactly? -/
def identCore (s : Str) : Bool :=
  match s with
  | [] => false
  | c :: cs =>
      (c.isAlpha || c = '_') && cs.all (fun x => x.isAlphanum || x = '_')

/-- Python `re.match(r'^[a-zA-Z_][a-zA-Z0-9_]*$', s)` viewed as a Bool:
`$` matches at the end of the string or just before one trailing newline. -/
def identMatch (s : Str) : Bool :=
  identCore s ||
    (match s.reverse with
     | '\n' :: rest => identCore rest.reverse
     | _ => false)

instance {ε α : Type} [DecidableEq ε] [DecidableEq α] : DecidableEq (Except ε α) := fun a b =>
  match a, b with
  | Except.error e, Except.error f =>
      if h : e = f then isTrue (by rw [h]) else isFalse (by intro hc; cases hc; exact h rfl)
  | Except.error _, Except.ok _ => isFalse (by intro hc; cases hc)
  | Except.ok _, Except.error _ => isFalse (by intro hc; cases hc)
  | Except.ok x, Except.ok y =>
      if h : x = y then isTrue (by rw [h]) else isFalse (by intro hc; cases hc; exact h rfl)

/-- `src/database/security.py`: `sanitize_identifier(identifier)`.
`ValueError` is embedded as `Except.error` carrying the message. -/
def sanitize_identifier (identifier : Str) : Except Str Str :=
  if identifier = [] then Except.error (sl "Identifier cannot be empty")
  else
    let identifier := identifier.filter (fun c => !(c = Char.ofNat 96))
    if !identMatch identifier then
      Except.error (sl "Invalid identifier: " ++ identifier)
    else Except.ok identifier

/-! ## `re.sub` for the error formatter

Python's engine finds the leftmost match and, at a given start position,
explores quantifiers greedily with backtracking.  `matchLens` lists the
candidate match lengths at one position in exactly that preference order,
so its head is the length Python's engine commits to.  The fuel argument
dominates the recursion depth (each `star` iteration consumes at least one
character, every other step is structural in the pattern). -/

namespace Rx

def size : Rx → Nat
  | none_ => 1
  | eps => 1
  | cls _ => 1
  | cat a b => size a + size b + 1
  | alt a b => size a + size b + 1
  | star r => size r + 1

def matchLens (fuel : Nat) (r : Rx) (s : Str) : List Nat :=
  match fuel with
  | 0 => []
  | fuel + 1 =>
    match r with
    | none_ => []
    | eps => [0]
    | cls p =>
        match s with
        | [] => []
        | c :: _ => if p c then [1] else []
    | alt a b => matchLens fuel a s ++ matchLens fuel b s
    | cat a b =>
        (matchLens fuel a s).flatMap
          (fun n => (matchLens fuel b (s.drop n)).map (fun m => n + m))
    | star r' =>
        ((matchLens fuel r' s).filter (fun n => 0 < n)).flatMap
          (fun n => (matchLens fuel (star r') (s.drop n)).map (fun m => n + m))
        ++ [0]

/-- The match length Python's backtracking engine commits to at the start
of `s`, if any. -/
def matchLen (r : Rx) (s : Str) : Option Nat :=
  (matchLens ((s.length + 1) * (size r + 1)) r s).head?

/-- Greedy `?`. -/
def opt (r : Rx) : Rx := mkAlt r eps

/-- One case-sensitive literal character. -/
def chr (c : Char) : Rx := cls (fun x => x = c)

/-- A case-sensitive literal string. -/
def lit (s : String) : Rx := s.toList.foldr (fun c acc => mkCat (chr c) acc) eps

/-- Greedy `+` over a pattern. -/
def plus (r : Rx) : Rx := mkCat r (star r)

end Rx

/-- Worker for `pySub`; each step consumes at least one input character, so
fuel equal to the input length suffices. -/
def pySubGo (r : Rx) (rep : Str) : Nat → Str → Str
  | _, [] =>
      (match Rx.matchLen r [] with
       | some _ => rep
       | _ => [])
  | 0, s => s
  | fuel + 1, c :: cs =>
      match Rx.matchLen r (c :: cs) with
      | some 0 => rep ++ c :: pySubGo r rep fuel cs
      | some (n + 1) => rep ++ pySubGo r rep fuel (cs.drop n)
      | Option.none => c :: pySubGo r rep fuel cs

/-- `re.sub(r, rep, s)`: replace every non-overlapping match, scanning left
to right; an empty match substitutes and then copies one character. -/
def pySub (r : Rx) (rep : Str) (s : Str) : Str :=
  pySubGo r rep s.length s

/-! ## `src/database/security.py`: `format_database_error` -/

open Rx in
/-- `r'password["\']?\s*[:=]\s*["\']?[^"\'\s]+'` with `re.IGNORECASE`. -/
def passwordPat : Rx :=
  catL [litCI "password",
        opt (cls (fun c => c = '"' || c = '\'')),
        wsStar,
        cls (fun c => c = ':' || c = '='),
        wsStar,
        opt (cls (fun c => c = '"' || c = '\'')),
        plus (cls (fun c => !(c = '"' || c = '\'' || pySpace c)))]

open Rx in
/-- `r'mysql://[^@]+@'` (case-sensitive: no flag is passed). -/
def mysqlUrlPat : Rx :=
  catL [lit "mysql://", plus (cls (fun c => !(c = '@'))), chr '@']

/-- Group 1 of `re.search(r"table '([^']+)' doesn't exist", error_str)`:
scan for the leftmost start where the whole pattern matches; `[^']+` can
only take the maximal quote-free run. -/
def findMissingTable : Str → Option Str
  | [] => Option.none
  | s@(_ :: rest) =>
      if pyStartsWith s (sl "table '") then
        let after := s.drop 7
        let name := after.takeWhile (fun c => !(c = '\''))
        if name ≠ [] ∧ pyStartsWith (after.drop name.length) (sl "' doesn't exist") then
          some name
        else findMissingTable rest
      else findMissingTable rest

/-- `src/database/security.py`: `format_database_error(error)`, with the
exception's `str(...)` embedded as the input string. -/
def format_database_error (error : Str) : Str :=
  let error_str := lowerStr error
  if containsSub (sl "access denied") error_str || containsSub (sl "password") error_str then
    sl "Database authentication failed. Please check credentials."
  else if containsSub (sl "timeout") error_str || containsSub (sl "timed out") error_str then
    sl "Database connection timed out. Please try again."
  else if containsSub (sl "connection refused") error_str ||
          containsSub (sl "can't connect") error_str then
    sl "Unable to connect to database. Please check if the database is running."
  else if containsSub (sl "unknown database") error_str then
    sl "Database not found. Please check the database name."
  else if containsSub (sl "table") error_str && containsSub (sl "doesn't exist") error_str then
    match findMissingTable error_str with
    | some t => sl "Table '" ++ t ++ sl "' does not exist."
    | Option.none => sl "Table does not exist."
  else if containsSub (sl "duplicate entry") error_str then
    sl "Duplicate entry error. A record with this value already exists."
  else if containsSub (sl "foreign key constraint") error_str then
    sl "Foreign key constraint violation. Please check related records."
  else if containsSub (sl "syntax error") error_str then
    sl "SQL syntax error. Please check your query."
  else
    let error_message := pySub passwordPat (sl "password=***") error
    let error_message := pySub mysqlUrlPat (sl "mysql://***@") error_message
    sl "Database error: " ++ error_message

/-! ## `src/database/utils.py`: `execute_query`

The driver call (`cursor.execute` + fetches) is embedded as its outcome: an
exception message, or a cursor snapshot.  The wall-clock duration measured
around the call is a parameter; the source computes it in both the success
and the exception branch. -/

/-- Snapshot of the driver cursor after a successful execution. -/
structure Cursor (ρ : Type) : Type where
  rows : List ρ
  rowcount : Int
  lastrowid : Option Int

/-- The `data` field of a `DatabaseOperationResult`, depending on the fetch
options. -/
inductive FetchData (ρ : Type) : Type where
  | one (r : Option ρ) : FetchData ρ
  | all (rs : List ρ) : FetchData ρ
  | cursorInfo (rowcount : Int) (lastrowid : Option Int) : FetchData ρ
  deriving DecidableEq

/-- `src/models.py`: `DatabaseOperationResult` (the `duration_ms` float is
embedded as a natural number of milliseconds). -/
structure DatabaseOperationResult (ρ : Type) : Type where
  success : Bool
  data : Option (FetchData ρ) := Option.none
  error : Option Str := Option.none
  duration_ms : Option Nat := Option.none
  rows_affected : Option Int := Option.none
  deriving DecidableEq

/-- `src/database/utils.py`: `execute_query(sql, params, fetch_one,
fetch_all, return_cursor)`, as a function of the driver outcome and the
measured duration. -/
def execute_query {ρ : Type} (outcome : Except Str (Cursor ρ)) (duration_ms : Nat)
    (fetch_one fetch_all return_cursor : Bool) : DatabaseOperationResult ρ :=
  match outcome with
  | Except.ok cursor =>
      let data : Option (FetchData ρ) :=
        if return_cursor then some (FetchData.cursorInfo cursor.rowcount cursor.lastrowid)
        else if fetch_one then some (FetchData.one cursor.rows.head?)
        else if fetch_all then some (FetchData.all cursor.rows)
        else Option.none
      { success := true
        data := data
        duration_ms := some duration_ms
        rows_affected := some cursor.rowcount }
  | Except.error e =>
      { success := false
        error := some (format_database_error e)
        duration_ms := some duration_ms }

/-! ## `main.py`: the legacy server's permission manager and executor -/

/-- `main.py`: `UserPermission` -/
structure UserPermission : Type where
  username : Str
  role : Str
  can_read : Bool
  can_write : Bool
  can_admin : Bool
  deriving DecidableEq

/-- Python `dict` embedded as an association list whose keys are unique;
assignment replaces the binding for an existing key. -/
def dictGet {α : Type} (k : Str) : List (Str × α) → Option α
  | [] => Option.none
  | (k', v) :: t => if k = k' then some v else dictGet k t

def dictInsert {α : Type} (k : Str) (v : α) (d : List (Str × α)) : List (Str × α) :=
  (k, v) :: d.filter (fun kv => !(kv.1 = k))

def dictMem {α : Type} (k : Str) (d : List (Str × α)) : Bool :=
  (dictGet k d).isSome

def dictDel {α : Type} (k : Str) (d : List (Str × α)) : List (Str × α) :=
  d.filter (fun kv => !(kv.1 = k))

def adminPerm (u : Str) : UserPermission :=
  { username := u, role := sl "admin", can_read := true, can_write := true, can_admin := true }

def writerPerm (u : Str) : UserPermission :=
  { username := u, role := sl "writer", can_read := true, can_write := true, can_admin := false }

def readerPerm (u : Str) : UserPermission :=
  { username := u, role := sl "reader", can_read := true, can_write := false, can_admin := false }

/-- `main.py`: `PermissionManager._build_permissions`, folding the three
configured allow-lists in admin, writer, reader order; the admin loop
assigns unconditionally, the writer and reader loops only assign usernames
not already present. -/
def build_permissions (admins writers readers : List Str) : List (Str × UserPermission) :=
  let d := admins.foldl (fun d u => dictInsert u (adminPerm u) d) []
  let d := writers.foldl (fun d u => if dictMem u d then d else dictInsert u (writerPerm u) d) d
  readers.foldl (fun d u => if dictMem u d then d else dictInsert u (readerPerm u) d) d

/-- `main.py`: `PermissionManager.get_user_permission(username)` -/
def get_user_permission (permissions : List (Str × UserPermission)) (username : Str) :
    Option UserPermission :=
  dictGet username permissions

/-- `main.py`: `PermissionManager.can_execute_query(username, query)` -/
def can_execute_query (permissions : List (Str × UserPermission)) (username query : Str) :
    Bool × Option Str :=
  match get_user_permission permissions username with
  | Option.none => (false, some (sl "User not found or no permissions"))
  | some user_perm =>
      let query_upper := pyStrip (upperStr query)
      if [sl "DROP", sl "ALTER", sl "CREATE", sl "TRUNCATE"].any
           (fun op => pyStartsWith query_upper op) then
        if !user_perm.can_admin then (false, some (sl "Admin permissions required"))
        else (true, Option.none)
      else if [sl "INSERT", sl "UPDATE", sl "DELETE"].any
           (fun op => pyStartsWith query_upper op) then
        if !user_perm.can_write then (false, some (sl "Write permissions required"))
        else (true, Option.none)
      else if pyStartsWith query_upper (sl "SELECT") then
        if !user_perm.can_read then (false, some (sl "Read permissions required"))
        else (true, Option.none)
      else (true, Option.none)

/-- Snapshot of the `aiomysql` cursor used by `main.py`'s `_execute_query`
(`description` records whether the driver reports a result set). -/
structure MainCursor (ρ : Type) : Type where
  rows : List ρ
  rowcount : Int
  lastrowid : Option Int
  description : Bool

/-- `main.py`: `QueryResult` (the fields `query_hash` and `timestamp` are
environment digests not modelled here; no claim mentions them). -/
structure QueryResult (ρ : Type) : Type where
  success : Bool
  data : Option (List ρ) := Option.none
  affected_rows : Option Int := Option.none
  last_insert_id : Option Int := Option.none
  error : Option Str := Option.none
  execution_time : Option Nat := Option.none
  user : Option Str := Option.none
  deriving DecidableEq

/-- `main.py`: `CloudflareMySQLMCPServer._execute_query(query, params,
fetch_results, user)`, as a function of the pool state, the driver outcome,
the row serializer `_serialize_row`, and the measured execution time.  In
the exception branch the source returns `error=str(e)` verbatim: the raw
exception text is not passed through `format_database_error`. -/
def main_execute_query {ρ ρ' : Type} (poolConnected : Bool)
    (outcome : Except Str (MainCursor ρ)) (serializeRow : ρ → ρ')
    (fetch_results : Bool) (user : Str) (execution_time : Nat) : QueryResult ρ' :=
  if !poolConnected then
    { success := false, error := some (sl "Not connected to database"), user := some user }
  else
    match outcome with
    | Except.ok cursor =>
        let data : Option (List ρ') :=
          if fetch_results && cursor.description then some (cursor.rows.map serializeRow)
          else Option.none
        { success := true
          data := data
          affected_rows := some cursor.rowcount
          last_insert_id := cursor.lastrowid
          execution_time := some execution_time
          user := some user }
    | Except.error e =>
        { success := false
          error := some e
          execution_time := some execution_time
          user := some user }

/-! ## `src/tools/transaction_tools.py`: `manage_transaction`

The tool drives a `TransactionManager` (from `src/database/connection.py`)
stored in the module-global `_active_transactions` dict, always under the
fixed session key `"default"`.  Driver calls that can raise
(`__aenter__`, `conn.commit`, `conn.rollback`, the two `__aexit__` call
sites of the `commit` branch, the `__aexit__` of the `rollback` branch and
the `SAVEPOINT` / `RELEASE SAVEPOINT` statements) are embedded as an
oracle assigning each call site `none` (returns) or `some msg` (raises an
exception whose `str` is `msg`).  Responses are embedded as the error flag
and message of `create_success_response` / `create_error_response`; the
JSON data payload the source appends to the text is not modelled (no claim
mentions it). -/

/-- The tracked state of one `TransactionManager` (its held connection is
open for as long as the record exists). -/
structure TransactionRecord : Type where
  savepoints : List Str
  deriving DecidableEq

/-- `ManageTransactionRequest.action` (a pydantic `Literal`). -/
inductive TxAction : Type where
  | begin : TxAction
  | commit : TxAction
  | rollback : TxAction
  | savepoint : TxAction
  | release_savepoint : TxAction
  deriving DecidableEq

/-- `src/models.py`: `ManageTransactionRequest`. -/
structure ManageTransactionRequest : Type where
  action : TxAction
  savepoint_name : Option Str
  deriving DecidableEq

/-- Outcomes of the driver call sites of one `manage_transaction` call. -/
structure TxOracle : Type where
  beginE : Option Str := Option.none
  commitE : Option Str := Option.none
  aexitCommitE : Option Str := Option.none
  aexitExceptE : Option Str := Option.none
  rollbackE : Option Str := Option.none
  aexitRollbackE : Option Str := Option.none
  savepointE : Option Str := Option.none
  releaseE : Option Str := Option.none

/-- The oracle of a run in which no driver call raises. -/
def idealOracle : TxOracle := {}

/-- A tool response, reduced to its error flag and message. -/
structure Response : Type where
  isError : Bool
  message : Str
  deriving DecidableEq

def mkOk (message : Str) : Response := { isError := false, message := message }

def mkErr (message : Str) : Response := { isError := true, message := message }

/-- Python `repr` of a string without quotes or backslashes, as rendered by
an f-string interpolating a list of savepoint names. -/
def pyReprStr (s : Str) : Str := Char.ofNat 39 :: s ++ [Char.ofNat 39]

/-- Python `repr` of a list of strings: `['a', 'b']`. -/
def pyReprList (l : List Str) : Str :=
  '[' :: List.intercalate (sl ", ") (l.map pyReprStr) ++ [']']

def session_id : Str := sl "default"

def noActiveResponse : Response :=
  mkErr (sl "No active transaction found. Use 'begin' to start a transaction.")

def alreadyActiveResponse : Response :=
  mkErr (sl "A transaction is already active. Please commit or rollback before starting a new one.")

/-- `src/tools/transaction_tools.py`: `manage_transaction(request)` as a
transition on the `_active_transactions` dict, given the driver oracle. -/
def manage_transaction (o : TxOracle) (st : List (Str × TransactionRecord))
    (req : ManageTransactionRequest) : List (Str × TransactionRecord) × Response :=
  match req.action with
  | TxAction.begin =>
      if dictMem session_id st then (st, alreadyActiveResponse)
      else
        match o.beginE with
        | some e => (st, mkErr (sl "Transaction begin failed: " ++ e))
        | Option.none =>
            (dictInsert session_id { savepoints := [] } st,
             mkOk (sl "Transaction started successfully"))
  | TxAction.commit =>
      match dictGet session_id st with
      | Option.none => (st, noActiveResponse)
      | some _ =>
          match o.commitE with
          | some e =>
              -- `conn.commit()` raised; the handler runs `__aexit__` and
              -- only deletes the record if that second call returns.
              let st' := match o.aexitExceptE with
                         | some _ => st
                         | Option.none => dictDel session_id st
              (st', mkErr (sl "Transaction commit failed: " ++ e))
          | Option.none =>
              match o.aexitCommitE with
              | some e =>
                  let st' := match o.aexitExceptE with
                             | some _ => st
                             | Option.none => dictDel session_id st
                  (st', mkErr (sl "Transaction commit failed: " ++ e))
              | Option.none =>
                  (dictDel session_id st, mkOk (sl "Transaction committed successfully"))
  | TxAction.rollback =>
      match dictGet session_id st with
      | Option.none => (st, noActiveResponse)
      | some _ =>
          -- The rollback handler deletes the record itself before
          -- re-raising, so the record is removed on every path.
          match o.rollbackE with
          | some e => (dictDel session_id st, mkErr (sl "Transaction rollback failed: " ++ e))
          | Option.none =>
              match o.aexitRollbackE with
              | some e =>
                  (dictDel session_id st, mkErr (sl "Transaction rollback failed: " ++ e))
              | Option.none =>
                  (dictDel session_id st, mkOk (sl "Transaction rolled back successfully"))
  | TxAction.savepoint =>
      match dictGet session_id st with
      | Option.none => (st, noActiveResponse)
      | some tx =>
          match req.savepoint_name with
          | Option.none => (st, mkErr (sl "Savepoint name is required"))
          | some n =>
              if n = [] then (st, mkErr (sl "Savepoint name is required"))
              else
                match o.savepointE with
                | some e => (st, mkErr (sl "Transaction savepoint failed: " ++ e))
                | Option.none =>
                    (dictInsert session_id { savepoints := tx.savepoints ++ [n] } st,
                     mkOk (sl "Savepoint '" ++ n ++ sl "' created successfully"))
  | TxAction.release_savepoint =>
      match dictGet session_id st with
      | Option.none => (st, noActiveResponse)
      | some tx =>
          match req.savepoint_name with
          | Option.none => (st, mkErr (sl "Savepoint name is required"))
          | some n =>
              if n = [] then (st, mkErr (sl "Savepoint name is required"))
              else if !(tx.savepoints.contains n) then
                (st, mkErr (sl "Savepoint '" ++ n ++
                            sl "' not found. Active savepoints: " ++ pyReprList tx.savepoints))
              else
                match o.releaseE with
                | some e => (st, mkErr (sl "Transaction release_savepoint failed: " ++ e))
                | Option.none =>
                    (dictInsert session_id { savepoints := tx.savepoints.erase n } st,
                     mkOk (sl "Savepoint '" ++ n ++ sl "' released successfully"))

/-! ## Helper lemmas -/

theorem dictMem_eq {α : Type} (k : Str) (d : List (Str × α)) :
    dictMem k d = (dictGet k d).isSome := rfl

theorem dictGet_filter_ne {α : Type} (u k : Str) (h : u ≠ k) (d : List (Str × α)) :
    dictGet u (d.filter (fun kv => !(kv.1 = k))) = dictGet u d := by
  induction d with
  | nil => rfl
  | cons kv t ih =>
      simp only [List.filter_cons]
      by_cases hk : kv.1 = k
      · have hu : ¬u = kv.1 := by rw [hk]; exact h
        simp [hk, dictGet, hu, ih, h]
      · by_cases hu : u = kv.1
        · simp [hk, dictGet, hu]
        · simp [hk, dictGet, hu, ih]

theorem dictGet_insert {α : Type} (u k : Str) (v : α) (d : List (Str × α)) :
    dictGet u (dictInsert k v d) = if u = k then some v else dictGet u d := by
  by_cases h : u = k
  · simp [dictInsert, dictGet, h]
  · simp [dictInsert, dictGet, h, dictGet_filter_ne u k h d]

theorem dictGet_foldl_admin (a : List Str) (u : Str) (d : List (Str × UserPermission)) :
    dictGet u (a.foldl (fun d u' => dictInsert u' (adminPerm u') d) d) =
      if u ∈ a then some (adminPerm u) else dictGet u d := by
  induction a generalizing d with
  | nil => simp
  | cons x xs ih =>
      simp only [List.foldl_cons]
      rw [ih]
      by_cases hxs : u ∈ xs
      · simp [hxs, List.mem_cons]
      · rw [if_neg hxs, dictGet_insert]
        by_cases hx : u = x
        · subst hx; simp
        · rw [if_neg hx, if_neg (by simp [List.mem_cons, hx, hxs])]

theorem dictGet_foldl_cond (f : Str → UserPermission) (w : List Str) (u : Str)
    (d : List (Str × UserPermission)) :
    dictGet u (w.foldl (fun d u' => if dictMem u' d then d else dictInsert u' (f u') d) d) =
      match dictGet u d with
      | some v => some v
      | Option.none => if u ∈ w then some (f u) else Option.none := by
  induction w generalizing d with
  | nil => cases hgd : dictGet u d <;> simp [hgd]
  | cons x xs ih =>
      simp only [List.foldl_cons]
      rw [ih]
      by_cases hm : dictMem x d = true
      · rw [if_pos hm]
        cases hgd : dictGet u d with
        | some v => simp
        | none =>
            have hx : ¬u = x := by
              intro he
              rw [dictMem_eq, ← he, hgd] at hm
              simp at hm
            simp [List.mem_cons, hx]
      · rw [if_neg hm]
        by_cases hx : u = x
        · subst hx
          have hgd : dictGet u d = Option.none := by
            rw [dictMem_eq] at hm
            cases hd : dictGet u d with
            | some v => rw [hd] at hm; simp at hm
            | none => rfl
          rw [dictGet_insert]
          simp [hgd]
        · rw [dictGet_insert, if_neg hx]
          cases hgd : dictGet u d with
          | some v => simp
          | none => simp [List.mem_cons, hx]

theorem pyStrip_eq (s : Str) :
    pyStrip s = List.rdropWhile pySpace (List.dropWhile pySpace s) := rfl

theorem head_dropWhile_false (p : Char → Bool) (s : Str) (c : Char)
    (h : (List.dropWhile p s).head? = some c) : p c = false := by
  induction s with
  | nil => simp [List.dropWhile] at h
  | cons a t ih =>
      by_cases hp : p a
      · rw [List.dropWhile_cons] at h
        simp only [hp, if_true] at h
        exact ih h
      · rw [List.dropWhile_cons] at h
        simp only [hp, if_false, Bool.false_eq_true] at h
        simp only [List.head?_cons, Option.some.injEq] at h
        rw [← h]
        simpa using hp

theorem pyStrip_idem (s : Str) : pyStrip (pyStrip s) = pyStrip s := by
  rw [pyStrip_eq, pyStrip_eq]
  set l := List.dropWhile pySpace s with hl
  have h1 : List.dropWhile pySpace (List.rdropWhile pySpace l) = List.rdropWhile pySpace l := by
    cases hr : List.rdropWhile pySpace l with
    | nil => rfl
    | cons c cs =>
        have hpref : c :: cs <+: l := by rw [← hr]; exact List.rdropWhile_prefix _ _
        obtain ⟨t, ht⟩ := hpref
        have hlh : (List.dropWhile pySpace s).head? = some c := by rw [← hl, ← ht]; rfl
        have hc : pySpace c = false := head_dropWhile_false pySpace s c hlh
        rw [List.dropWhile_cons]
        simp [hc]
  rw [h1, List.rdropWhile_idempotent]

/-- `get_operation_type` strips its input itself, so pre-stripping (as
`validate_sql_query` does) changes nothing. -/
theorem get_operation_type_strip (sql : Str) :
    get_operation_type (pyStrip sql) = get_operation_type sql := by
  unfold get_operation_type firstKeyword
  rw [pyStrip_idem]

/-- Closed form of the permission map built by
`PermissionManager._build_permissions`. -/
theorem build_permissions_get (admins writers readers : List Str) (u : Str) :
    get_user_permission (build_permissions admins writers readers) u =
      if u ∈ admins then some (adminPerm u)
      else if u ∈ writers then some (writerPerm u)
      else if u ∈ readers then some (readerPerm u)
      else Option.none := by
  unfold get_user_permission build_permissions
  rw [dictGet_foldl_cond, dictGet_foldl_cond, dictGet_foldl_admin]
  by_cases ha : u ∈ admins
  · simp [ha]
  · rw [if_neg ha]
    simp only [dictGet, if_neg ha]
    by_cases hw : u ∈ writers
    · simp [hw]
    · simp [hw]

theorem got_of_firstKeyword (sql fw : Str) (h : firstKeyword sql = fw) :
    get_operation_type sql =
      (if READ_OPERATIONS.contains fw then sl "read"
       else if WRITE_OPERATIONS.contains fw then sl "write"
       else if DDL_OPERATIONS.contains fw then sl "ddl"
       else if PROCEDURE_OPERATIONS.contains fw then sl "procedure"
       else if TRANSACTION_OPERATIONS.contains fw then sl "transaction"
       else sl "unknown") := by
  unfold get_operation_type
  rw [h]

/-! ## Claims -/

/-- C1: a username that appears in none of the configured allow-lists
(admins, writers, readers) is denied by
`PermissionManager.can_execute_query` for every SQL string, with the
"no permissions" reason, regardless of the query's classification. -/
theorem C1_absent_user_denied (admins writers readers : List Str) (u q : Str)
    (ha : u ∉ admins) (hw : u ∉ writers) (hr : u ∉ readers) :
    can_execute_query (build_permissions admins writers readers) u q =
      (false, some (sl "User not found or no permissions")) := by
  unfold can_execute_query
  rw [build_permissions_get]
  simp [ha, hw, hr]

/-- Witness for C1: the unconfigured username "mallory" is denied a read
query under a configuration listing only "alice" and "bob". -/
theorem C1_absent_user_denied_witness :
    can_execute_query (build_permissions [sl "alice"] [] [sl "bob"]) (sl "mallory")
        (sl "SELECT * FROM t") =
      (false, some (sl "User not found or no permissions")) :=
  C1_absent_user_denied [sl "alice"] [] [sl "bob"] (sl "mallory") (sl "SELECT * FROM t")
    (by decide) (by decide) (by decide)

/-- C3: SQL classification is a function of the first keyword of the
trimmed, lower-cased statement: a first word in the read/write/ddl/
procedure/transaction keyword set yields that class, any other first word
yields "unknown", the listed examples classify as stated, and
`validate_sql_query` reclassifies an "unknown" statement starting with
"with" or "(" as read. -/
theorem C3_classification (sql : Str) :
    (firstKeyword sql ∈ READ_OPERATIONS → get_operation_type sql = sl "read") ∧
    (firstKeyword sql ∈ WRITE_OPERATIONS → get_operation_type sql = sl "write") ∧
    (firstKeyword sql ∈ DDL_OPERATIONS → get_operation_type sql = sl "ddl") ∧
    (firstKeyword sql ∈ PROCEDURE_OPERATIONS → get_operation_type sql = sl "procedure") ∧
    (firstKeyword sql ∈ TRANSACTION_OPERATIONS → get_operation_type sql = sl "transaction") ∧
    (firstKeyword sql ∉ READ_OPERATIONS → firstKeyword sql ∉ WRITE_OPERATIONS →
     firstKeyword sql ∉ DDL_OPERATIONS → firstKeyword sql ∉ PROCEDURE_OPERATIONS →
     firstKeyword sql ∉ TRANSACTION_OPERATIONS → get_operation_type sql = sl "unknown") ∧
    (get_operation_type sql = sl "unknown" →
     dangerousMatch (pyStrip sql) = false → pyStrip sql ≠ [] →
     (pyStartsWith (lowerStr (pyStrip sql)) (sl "with") = true ∨
      pyStartsWith (lowerStr (pyStrip sql)) (sl "(") = true) →
     (validate_sql_query sql).operation_type = some (sl "read")) ∧
    get_operation_type (sl "SELECT * FROM t") = sl "read" ∧
    get_operation_type (sl "INSERT INTO t VALUES (1)") = sl "write" ∧
    get_operation_type (sl "CREATE TABLE t (id INT)") = sl "ddl" ∧
    get_operation_type (sl "CALL p()") = sl "procedure" ∧
    get_operation_type (sl "BEGIN") = sl "transaction" ∧
    get_operation_type (sl "COMMIT") = sl "transaction" := by
  refine ⟨?_, ?_, ?_, ?_, ?_, ?_, ?_, by decide, by decide, by decide, by decide,
    by decide, by decide⟩
  · intro h
    simp only [READ_OPERATIONS, List.mem_cons, List.not_mem_nil, or_false] at h
    rcases h with h | h | h | h | h <;> rw [got_of_firstKeyword sql _ h] <;> decide
  · intro h
    simp only [WRITE_OPERATIONS, List.mem_cons, List.not_mem_nil, or_false] at h
    rcases h with h | h | h | h <;> rw [got_of_firstKeyword sql _ h] <;> decide
  · intro h
    simp only [DDL_OPERATIONS, List.mem_cons, List.not_mem_nil, or_false] at h
    rcases h with h | h | h | h | h <;> rw [got_of_firstKeyword sql _ h] <;> decide
  · intro h
    simp only [PROCEDURE_OPERATIONS, List.mem_cons, List.not_mem_nil, or_false] at h
    rcases h with h | h <;> rw [got_of_firstKeyword sql _ h] <;> decide
  · intro h
    simp only [TRANSACTION_OPERATIONS, List.mem_cons, List.not_mem_nil, or_false] at h
    rcases h with h | h | h | h | h <;> rw [got_of_firstKeyword sql _ h] <;> decide
  · intro h1 h2 h3 h4 h5
    rw [got_of_firstKeyword sql _ rfl]
    simp [h1, h2, h3, h4, h5]
  · intro hu hdm hne hcte
    have hu' : get_operation_type (pyStrip sql) = sl "unknown" := by
      rw [get_operation_type_strip]; exact hu
    unfold validate_sql_query
    rw [if_neg hne]
    simp only [hdm, Bool.false_eq_true, if_false]
    rw [if_pos ⟨hu', hcte⟩]

/-- Witness for C3: the write implication at "DELETE FROM t" and the CTE
implication at a WITH-statement. -/
theorem C3_classification_witness :
    get_operation_type (sl "DELETE FROM t") = sl "write" ∧
    (validate_sql_query (sl "WITH c AS (SELECT 1) SELECT * FROM c")).operation_type =
      some (sl "read") :=
  ⟨(C3_classification (sl "DELETE FROM t")).2.1 (by decide),
   (C3_classification (sl "WITH c AS (SELECT 1) SELECT * FROM c")).2.2.2.2.2.2.1
     (by decide) (by decide) (by decide) (Or.inl (by decide))⟩

/-- C2 as stated is false: the deny-list is matched against the
whitespace-stripped query, so a SQL string that matches a dangerous
pattern only thanks to its trailing whitespace (here the required `\s+`
of `;\s*(drop|...)\s+` is the final space) passes validation. -/
theorem C2_denylist_counterexample :
    dangerousMatch (sl "select 1; drop ") = true ∧
    (validate_sql_query (sl "select 1; drop ")).is_valid = true := by
  exact ⟨by decide, by decide⟩

/-- C2 (amended): for every SQL string whose whitespace-stripped form
matches at least one dangerous pattern (case-insensitively),
`validate_sql_query` returns `is_valid = false` with a non-empty error;
the function takes no capability input, so the result is independent of
any caller capability. -/
theorem C2_denylist_rejects (sql : Str) (h : dangerousMatch (pyStrip sql) = true) :
    (validate_sql_query sql).is_valid = false ∧
    (validate_sql_query sql).error ≠ Option.none := by
  have hne : ¬pyStrip sql = [] := by
    intro he
    rw [he] at h
    exact absurd h (by decide)
  unfold validate_sql_query
  rw [if_neg hne]
  simp only [h, if_true]
  exact ⟨by simp, by simp⟩

/-- Witness for C2 (amended) at a statement-chaining injection. -/
theorem C2_denylist_rejects_witness :
    (validate_sql_query (sl "SELECT 1; DROP TABLE users")).is_valid = false ∧
    (validate_sql_query (sl "SELECT 1; DROP TABLE users")).error ≠ Option.none :=
  C2_denylist_rejects (sl "SELECT 1; DROP TABLE users") (by decide)

/-- C4 as stated is false: `PermissionManager.get_user_permission` is an
exact dict lookup, so under a configuration listing admin "Alice" the
role-based check of `can_execute_query` denies "alice" while it allows
"Alice". -/
theorem C4_case_counterexample :
    (can_execute_query (build_permissions [sl "Alice"] [] []) (sl "alice")
        (sl "SELECT * FROM t")).1 = false ∧
    (can_execute_query (build_permissions [sl "Alice"] [] []) (sl "Alice")
        (sl "SELECT * FROM t")).1 = true := by
  exact ⟨by decide, by decide⟩

/-- C4 (amended): the `is_write_access_allowed` membership test is
case-insensitive (usernames equal up to letter case get the same answer),
but the role-based permission lookup used by `can_execute_query` is an
exact, case-sensitive dict lookup: a case variant of a configured
username resolves to no permission record. -/
theorem C4_case_sensitivity (u v : Str) (h : lowerStr u = lowerStr v) :
    is_write_access_allowed u = is_write_access_allowed v ∧
    get_user_permission (build_permissions [sl "Alice"] [] []) (sl "alice") = Option.none := by
  constructor
  · unfold is_write_access_allowed
    rw [h]
  · decide

/-- Witness for C4 (amended) at a case variant of the configured
username. -/
theorem C4_case_sensitivity_witness :
    is_write_access_allowed (sl "VEDANTPARMAR12") = is_write_access_allowed (sl "vedantparmar12") :=
  (C4_case_sensitivity (sl "VEDANTPARMAR12") (sl "vedantparmar12") (by decide)).1

/-- C5 as stated is false: `sanitize_identifier` strips backticks before
checking the identifier grammar, so the trailing-backtick name
"users\x60" is accepted (returning "users"), not rejected. -/
theorem C5_sanitize_counterexample :
    sanitize_identifier (sl "users`") = Except.ok (sl "users") := by decide

/-- C5 (amended): `sanitize_identifier` fails exactly when the input is
empty or, after removing backticks (only backticks; quote characters are
not stripped), the result does not match `^[A-Za-z_][A-Za-z0-9_]*$`
(Python semantics, which also accept one trailing newline); "users" is
returned unchanged and "users; DROP TABLE" is rejected.  A name whose only
illegal characters are backticks is accepted with the backticks removed. -/
theorem C5_sanitize_exact (identifier : Str) :
    ((sanitize_identifier identifier).isOk = true ↔
      (identifier ≠ [] ∧
       identMatch (identifier.filter (fun c => !(c = Char.ofNat 96))) = true)) ∧
    sanitize_identifier (sl "users") = Except.ok (sl "users") ∧
    (sanitize_identifier (sl "users; DROP TABLE")).isOk = false := by
  refine ⟨?_, by decide, by decide⟩
  unfold sanitize_identifier
  by_cases he : identifier = []
  · simp [he, Except.isOk, Except.toBool]
  · rw [if_neg he]
    by_cases hm : identMatch (identifier.filter (fun c => !(c = Char.ofNat 96))) = true
    · simp [hm, he, Except.isOk, Except.toBool]
    · have hm' : identMatch (identifier.filter (fun c => !(c = Char.ofNat 96))) = false := by
        simpa using hm
      simp [hm', he, Except.isOk, Except.toBool]

/-- Witness for C5 (amended): "users" passes the characterization. -/
theorem C5_sanitize_exact_witness :
    (sanitize_identifier (sl "users")).isOk = true :=
  ((C5_sanitize_exact (sl "users")).1).mpr (by exact ⟨by decide, by decide⟩)

/-- C6 as stated is false for the legacy executor: on a driver exception
`main.py`'s `_execute_query` returns `error=str(e)` verbatim instead of
the formatter's output, so the raw driver text (here "timeout", which the
formatter would replace by a stable message) reaches the caller. -/
theorem C6_raw_error_counterexample :
    (main_execute_query true (Except.error (sl "timeout")) (fun r : Unit => r) true
        (sl "alice") 5).error = some (sl "timeout") ∧
    format_database_error (sl "timeout") =
      sl "Database connection timed out. Please try again." ∧
    ¬(sl "timeout" = sl "Database connection timed out. Please try again.") := by
  exact ⟨rfl, by decide, by decide⟩

/-- C6 (amended): the pooled query executor `execute_query` of
`src/database/utils.py` returns, whenever the driver raises, a failure
outcome with `success = false`, the measured elapsed duration, and the
exception mapped through `format_database_error`; the legacy
`main.py._execute_query` instead returns the raw exception text. -/
theorem C6_error_formatting {ρ : Type} (e : Str) (d : Nat)
    (fetch_one fetch_all return_cursor : Bool) :
    (execute_query (ρ := ρ) (Except.error e) d fetch_one fetch_all return_cursor).success
        = false ∧
    (execute_query (ρ := ρ) (Except.error e) d fetch_one fetch_all return_cursor).duration_ms
        = some d ∧
    (execute_query (ρ := ρ) (Except.error e) d fetch_one fetch_all return_cursor).error
        = some (format_database_error e) :=
  ⟨rfl, rfl, rfl⟩

theorem dictMem_true_get {α : Type} (k : Str) (d : List (Str × α)) (h : dictMem k d = true) :
    ∃ v, dictGet k d = some v := by
  rw [dictMem_eq] at h
  cases hg : dictGet k d with
  | some v => exact ⟨v, rfl⟩
  | none => rw [hg] at h; simp at h

theorem dictMem_false_get {α : Type} (k : Str) (d : List (Str × α)) (h : dictMem k d = false) :
    dictGet k d = Option.none := by
  rw [dictMem_eq] at h
  cases hg : dictGet k d with
  | some v => rw [hg] at h; simp at h
  | none => rfl

/-- Two responses whose messages start with different characters differ. -/
theorem resp_ne (a b : Response) (ca cb : Char) (hha : a.message.head? = some ca)
    (hhb : b.message.head? = some cb) (h : ¬ca = cb) : a ≠ b := by
  intro hc
  rw [hc, hhb] at hha
  exact h (Option.some.injEq .. ▸ hha).symm

/-- C7: `manage_transaction` is gated on the session key's record: `begin`
answers the "already active" error exactly when a record exists (leaving
the state unchanged), and every other action answers the "no active
transaction" error exactly when no record exists (state unchanged), for
every driver oracle. -/
theorem C7_transaction_gating (o : TxOracle) (st : List (Str × TransactionRecord))
    (req : ManageTransactionRequest) :
    (req.action = TxAction.begin → dictMem session_id st = true →
      manage_transaction o st req = (st, alreadyActiveResponse)) ∧
    (req.action ≠ TxAction.begin → dictMem session_id st = false →
      manage_transaction o st req = (st, noActiveResponse)) ∧
    (req.action = TxAction.begin → dictMem session_id st = false →
      (manage_transaction o st req).2 ≠ alreadyActiveResponse) ∧
    (req.action ≠ TxAction.begin → dictMem session_id st = true →
      (manage_transaction o st req).2 ≠ noActiveResponse) := by
  obtain ⟨action, name⟩ := req
  refine ⟨?_, ?_, ?_, ?_⟩
  · intro ha hm
    cases action <;> simp_all [manage_transaction, hm]
  · intro ha hm
    have hg : dictGet session_id st = Option.none := dictMem_false_get _ _ hm
    cases action <;> simp_all [manage_transaction, hg, dictMem_eq]
  · intro ha hm
    cases action with
    | begin =>
        simp only [manage_transaction, hm, Bool.false_eq_true, if_false]
        cases o.beginE with
        | some e => exact resp_ne _ _ 'T' 'A' rfl rfl (by decide)
        | none => exact resp_ne _ _ 'T' 'A' rfl rfl (by decide)
    | commit => simp at ha
    | rollback => simp at ha
    | savepoint => simp at ha
    | release_savepoint => simp at ha
  · intro ha hm
    obtain ⟨tx, hg⟩ := dictMem_true_get session_id st hm
    cases action with
    | begin => exact absurd rfl ha
    | commit =>
        simp only [manage_transaction, hg]
        cases o.commitE with
        | some e =>
            cases o.aexitExceptE <;> exact resp_ne _ _ 'T' 'N' rfl rfl (by decide)
        | none =>
            cases o.aexitCommitE with
            | some e => cases o.aexitExceptE <;> exact resp_ne _ _ 'T' 'N' rfl rfl (by decide)
            | none => exact resp_ne _ _ 'T' 'N' rfl rfl (by decide)
    | rollback =>
        simp only [manage_transaction, hg]
        cases o.rollbackE with
        | some e => exact resp_ne _ _ 'T' 'N' rfl rfl (by decide)
        | none =>
            cases o.aexitRollbackE with
            | some e => exact resp_ne _ _ 'T' 'N' rfl rfl (by decide)
            | none => exact resp_ne _ _ 'T' 'N' rfl rfl (by decide)
    | savepoint =>
        simp only [manage_transaction, hg]
        cases name with
        | none => exact resp_ne _ _ 'S' 'N' rfl rfl (by decide)
        | some n =>
            by_cases hn : n = []
            · simp only [if_pos hn]
              exact resp_ne _ _ 'S' 'N' rfl rfl (by decide)
            · simp only [if_neg hn]
              cases o.savepointE with
              | some e => exact resp_ne _ _ 'T' 'N' rfl rfl (by decide)
              | none => exact resp_ne _ _ 'S' 'N' rfl rfl (by decide)
    | release_savepoint =>
        simp only [manage_transaction, hg]
        cases name with
        | none => exact resp_ne _ _ 'S' 'N' rfl rfl (by decide)
        | some n =>
            by_cases hn : n = []
            · simp only [if_pos hn]
              exact resp_ne _ _ 'S' 'N' rfl rfl (by decide)
            · simp only [if_neg hn]
              by_cases hc : tx.savepoints.contains n
              · simp only [hc, Bool.not_true, Bool.false_eq_true, if_false]
                cases o.releaseE with
                | some e => exact resp_ne _ _ 'T' 'N' rfl rfl (by decide)
                | none => exact resp_ne _ _ 'S' 'N' rfl rfl (by decide)
              · simp only [Bool.not_eq_true] at hc
                simp only [hc, Bool.not_false, if_true]
                exact resp_ne _ _ 'S' 'N' rfl rfl (by decide)

/-- Witness for C7 at concrete states: a second `begin` on an active
record answers "already active", and a `commit` with no record answers
"no active transaction". -/
theorem C7_transaction_gating_witness :
    manage_transaction idealOracle [(session_id, { savepoints := [] })]
        ⟨TxAction.begin, Option.none⟩ =
      ([(session_id, { savepoints := [] })], alreadyActiveResponse) ∧
    manage_transaction idealOracle [] ⟨TxAction.commit, Option.none⟩ =
      ([], noActiveResponse) :=
  ⟨(C7_transaction_gating idealOracle [(session_id, { savepoints := [] })]
      ⟨TxAction.begin, Option.none⟩).1 rfl (by decide),
   (C7_transaction_gating idealOracle [] ⟨TxAction.commit, Option.none⟩).2.1
      (by decide) (by decide)⟩

/-- C8: with an active transaction, `release_savepoint(n)` succeeds and
erases `n` from the tracked savepoint list exactly when `n` is tracked
(given the driver returns); when `n` is untracked the call fails with a
message listing the tracked savepoints and leaves the state unchanged.
The concrete scenario savepoint("a") then release_savepoint("a") succeeds
and leaves "a" untracked. -/
theorem C8_release_savepoint (o : TxOracle) (st : List (Str × TransactionRecord))
    (tx : TransactionRecord) (n : Str) (htx : dictGet session_id st = some tx)
    (hn : n ≠ []) :
    (tx.savepoints.contains n = true → o.releaseE = Option.none →
      manage_transaction o st ⟨TxAction.release_savepoint, some n⟩ =
        (dictInsert session_id { savepoints := tx.savepoints.erase n } st,
         mkOk (sl "Savepoint '" ++ n ++ sl "' released successfully"))) ∧
    (tx.savepoints.contains n = false →
      manage_transaction o st ⟨TxAction.release_savepoint, some n⟩ =
        (st, mkErr (sl "Savepoint '" ++ n ++ sl "' not found. Active savepoints: " ++
                    pyReprList tx.savepoints))) ∧
    ((manage_transaction idealOracle
        (manage_transaction idealOracle [(session_id, { savepoints := [] })]
          ⟨TxAction.savepoint, some (sl "a")⟩).1
        ⟨TxAction.release_savepoint, some (sl "a")⟩).1.head? =
      some (session_id, { savepoints := [] })) := by
  refine ⟨?_, ?_, by decide⟩
  · intro hc ho
    simp only [manage_transaction, htx, if_neg hn, hc, Bool.not_true, Bool.false_eq_true,
      if_false, ho]
  · intro hc
    simp only [manage_transaction, htx, if_neg hn, hc, Bool.not_false, if_true]

/-- Witness for C8 at a transaction tracking ["a", "b"]: releasing "a"
erases it; releasing "missing" fails and lists ["a", "b"]. -/
theorem C8_release_savepoint_witness :
    manage_transaction idealOracle [(session_id, { savepoints := [sl "a", sl "b"] })]
        ⟨TxAction.release_savepoint, some (sl "a")⟩ =
      (dictInsert session_id { savepoints := [sl "b"] }
         [(session_id, { savepoints := [sl "a", sl "b"] })],
       mkOk (sl "Savepoint 'a' released successfully")) ∧
    manage_transaction idealOracle [(session_id, { savepoints := [sl "a", sl "b"] })]
        ⟨TxAction.release_savepoint, some (sl "missing")⟩ =
      ([(session_id, { savepoints := [sl "a", sl "b"] })],
       mkErr (sl "Savepoint 'missing' not found. Active savepoints: ['a', 'b']")) := by
  constructor
  · have h := (C8_release_savepoint idealOracle
      [(session_id, { savepoints := [sl "a", sl "b"] })]
      { savepoints := [sl "a", sl "b"] } (sl "a") rfl (by decide)).1 (by decide) rfl
    rw [h]
    exact congrArg _ (by decide)
  · have h := (C8_release_savepoint idealOracle
      [(session_id, { savepoints := [sl "a", sl "b"] })]
      { savepoints := [sl "a", sl "b"] } (sl "missing") rfl (by decide)).2.1 (by decide)
    rw [h]
    exact congrArg _ (by decide)

/-- C9: the claim (and the spec) require the transaction record to be
gone after every `commit`/`rollback`, even when the driver raises during
commit or cleanup.  The code violates this: when `conn.commit()` or the
first `__aexit__` raises and the handler's `__aexit__` raises again, the
`del` is skipped and the record survives the call, leaving the "default"
session stuck as active. -/
theorem C9_commit_stale_record :
    (manage_transaction
        { aexitCommitE := some (sl "boom"), aexitExceptE := some (sl "boom") }
        [(session_id, { savepoints := [] })] ⟨TxAction.commit, Option.none⟩).1 =
      [(session_id, { savepoints := [] })] ∧
    (manage_transaction
        { aexitCommitE := some (sl "boom"), aexitExceptE := some (sl "boom") }
        [(session_id, { savepoints := [] })] ⟨TxAction.commit, Option.none⟩).2.isError = true ∧
    dictMem session_id
      (manage_transaction
        { aexitCommitE := some (sl "boom"), aexitExceptE := some (sl "boom") }
        [(session_id, { savepoints := [] })] ⟨TxAction.commit, Option.none⟩).1 = true := by
  exact ⟨by decide, by decide, by decide⟩

/-- C10: the permission map built from the admin, writer and reader
allow-lists gives each username at most one permission record, and a
username listed several times receives the most privileged of its roles:
admin membership always wins, then writer, then reader; a username in no
list gets no record. -/
theorem C10_role_priority (admins writers readers : List Str) (u : Str) :
    get_user_permission (build_permissions admins writers readers) u =
      (if u ∈ admins then some (adminPerm u)
       else if u ∈ writers then some (writerPerm u)
       else if u ∈ readers then some (readerPerm u)
       else Option.none) :=
  build_permissions_get admins writers readers u

end MySQLGate
